import Mathlib

/-!
Verification of the calvin_instinctus reflex layer (M4 core) against its
specification.  The C++ sources are shallowly embedded: `float` values are
modelled as exact rationals (`ℚ`), the Arduino `unsigned long` timer as a
natural number reduced modulo 2^32, fallible reads as `Option`, and the
synchronous observer callbacks as explicit lists of notification records.
Each embedded definition mirrors one function of the source tree.
-/

/-- Arduino's `PI` macro, the decimal literal `3.1415926535897932384626433832795`
from the Arduino core headers, read as an exact rational. -/
def ARDUINO_PI : ℚ := 3.1415926535897932384626433832795

/-- C `unsigned long` (32-bit) subtraction `a - b`, i.e. subtraction modulo
2^32 = 4294967296, for operands already reduced modulo 2^32. -/
def ulSub (a b : ℕ) : ℕ :=
  (a + 4294967296 - b) % 4294967296

/-! ## BalanceIMU (src/unnamed/part_000, header src/unnamed/part_004) -/

/-- One successful `IMUInterface::readSensors` result: accelerometer (m/s²)
and gyroscope (rad/s) triples, robot frame. -/
structure ImuSample where
  accelX : ℚ
  accelY : ℚ
  accelZ : ℚ
  gyroX : ℚ
  gyroY : ℚ
  gyroZ : ℚ
deriving DecidableEq

/-- The mutable fields of class `BalanceIMU`: last sensor readings, the
filtered tilt angle, the `millis()` stamp of the last update, and the number
of registered observers (the `observers` array up to `observerCount`; all
registered observers receive identical callbacks, so only the count matters). -/
structure ImuState where
  accelX : ℚ
  accelY : ℚ
  accelZ : ℚ
  gyroX : ℚ
  gyroY : ℚ
  gyroZ : ℚ
  currentTiltAngle : ℚ
  lastUpdateTime : ℕ
  observerCount : ℕ
deriving DecidableEq

/-- An observer callback issued during `BalanceIMU::update`: which observer
index was called, with which angle argument. -/
inductive Notification where
  | tiltChange (observer : ℕ) (angle : ℚ)
  | balanceEmergency (observer : ℕ) (angle : ℚ)
deriving DecidableEq

namespace BalanceIMU

/-- `BalanceIMU::TILT_ALPHA = 0.98`, the complementary filter coefficient. -/
def TILT_ALPHA : ℚ := 0.98

/-- Effect of a successful `imu->readSensors(accelX, ..., gyroZ)` call: the
six member fields are overwritten with the sample. -/
def readInto (s : ImuState) (smp : ImuSample) : ImuState :=
  { s with
    accelX := smp.accelX, accelY := smp.accelY, accelZ := smp.accelZ,
    gyroX := smp.gyroX, gyroY := smp.gyroY, gyroZ := smp.gyroZ }

/-- The time delta of `BalanceIMU::update`:
`(currentTime - lastUpdateTime) / 1000.0` with `unsigned long` subtraction,
in seconds. -/
def deltaTimeSec (currentTime lastUpdateTime : ℕ) : ℚ :=
  ((ulSub currentTime lastUpdateTime : ℕ) : ℚ) / 1000

/-- `BalanceIMU::calculateTiltFromAccel`:
`atan2(accelX, accelZ) * 180.0 / PI`.  The C math-library `atan2` is passed
in as the function parameter `atan2f` (radians). -/
def calculateTiltFromAccel (atan2f : ℚ → ℚ → ℚ) (s : ImuState) : ℚ :=
  atan2f s.accelX s.accelZ * 180 / ARDUINO_PI

/-- `BalanceIMU::applyComplementaryFilter(accelTilt, gyroRate, deltaTime)`:
`gyroAngle = currentTiltAngle + (gyroRate * 180.0 / PI) * deltaTime;`
`return TILT_ALPHA * gyroAngle + (1.0 - TILT_ALPHA) * accelTilt;`. -/
def applyComplementaryFilter (s : ImuState) (accelTilt gyroRate deltaTime : ℚ) : ℚ :=
  let gyroAngle := s.currentTiltAngle + (gyroRate * 180 / ARDUINO_PI) * deltaTime
  TILT_ALPHA * gyroAngle + (1 - TILT_ALPHA) * accelTilt

/-- `BalanceIMU::update`.  `read` is the outcome of
`imu->readSensors(...)` (`none` = the call returned `false`), `currentTime`
the value of `millis()`.  Returns the new object state and the list of
observer callbacks issued, in issue order. -/
def update (atan2f : ℚ → ℚ → ℚ) (s : ImuState) (read : Option ImuSample)
    (currentTime : ℕ) : ImuState × List Notification :=
  match read with
  | none => (s, [])
  | some smp =>
    let s1 := readInto s smp
    let deltaTime := deltaTimeSec currentTime s1.lastUpdateTime
    let s2 := { s1 with lastUpdateTime := currentTime }
    let accelTilt := calculateTiltFromAccel atan2f s2
    let newTiltAngle := applyComplementaryFilter s2 accelTilt s2.gyroX deltaTime
    let tiltChangeAmt := |newTiltAngle - s2.currentTiltAngle|
    let tiltNotifs :=
      if 1 < tiltChangeAmt then
        (List.range s2.observerCount).map (fun i => Notification.tiltChange i newTiltAngle)
      else []
    let s3 := { s2 with currentTiltAngle := newTiltAngle }
    let emNotifs :=
      if 45 < |s3.currentTiltAngle| then
        (List.range s3.observerCount).map
          (fun i => Notification.balanceEmergency i s3.currentTiltAngle)
      else []
    (s3, tiltNotifs ++ emNotifs)

/-- `BalanceIMU::getTiltAngle`. -/
def getTiltAngle (s : ImuState) : ℚ :=
  s.currentTiltAngle

/-- The filtered angle computed by one successful update (the value the
source stores in `newTiltAngle`). -/
def nextTilt (atan2f : ℚ → ℚ → ℚ) (s : ImuState) (smp : ImuSample) (t : ℕ) : ℚ :=
  applyComplementaryFilter (readInto s smp)
    (calculateTiltFromAccel atan2f (readInto s smp)) smp.gyroX
    (deltaTimeSec t s.lastUpdateTime)

/-- A sequence of successful update cycles: each list entry is the sensor
sample read and the `millis()` value of that cycle. -/
def runUpdates (atan2f : ℚ → ℚ → ℚ) (s : ImuState) :
    List (ImuSample × ℕ) → ImuState
  | [] => s
  | (smp, t) :: rest => runUpdates atan2f (update atan2f s (some smp) t).1 rest

end BalanceIMU

/-- Modelled from the spec (§4.1 steps 1–3): the filtered-tilt formula as the
spec states it, `0.98 × (previous + gyroRate·(180/π)·elapsed) + 0.02 ×
(atan2(accelForward, accelVertical)·(180/π))`, for comparison with the
source's `update`. -/
def specFilteredTilt (atan2f : ℚ → ℚ → ℚ) (prevFiltered aX aZ gyroLateral elapsedSec : ℚ) : ℚ :=
  0.98 * (prevFiltered + gyroLateral * 180 / ARDUINO_PI * elapsedSec)
    + 0.02 * (atan2f aX aZ * 180 / ARDUINO_PI)

/-- Unfolding of `BalanceIMU.update` on a successful read, used by the
claim proofs. -/
lemma BalanceIMU.update_some_eq (atan2f : ℚ → ℚ → ℚ) (s : ImuState) (smp : ImuSample) (t : ℕ) :
    BalanceIMU.update atan2f s (some smp) t =
      (⟨smp.accelX, smp.accelY, smp.accelZ, smp.gyroX, smp.gyroY, smp.gyroZ,
        BalanceIMU.nextTilt atan2f s smp t, t, s.observerCount⟩,
       (if 1 < |BalanceIMU.nextTilt atan2f s smp t - s.currentTiltAngle| then
          (List.range s.observerCount).map
            (fun i => Notification.tiltChange i (BalanceIMU.nextTilt atan2f s smp t))
        else [])
       ++ (if 45 < |BalanceIMU.nextTilt atan2f s smp t| then
          (List.range s.observerCount).map
            (fun i => Notification.balanceEmergency i (BalanceIMU.nextTilt atan2f s smp t))
        else [])) := rfl

/-- C4: on every successful `BalanceIMU::update`, the new filtered tilt angle
equals `0.98 × (previous filtered angle + gyro rate (converted to °/s) ×
elapsed seconds) + 0.02 × (atan2(accelForwardAxis, accelVerticalAxis)
converted to degrees)`. -/
theorem filtered_tilt_formula (atan2f : ℚ → ℚ → ℚ) (s : ImuState) (smp : ImuSample) (t : ℕ) :
    BalanceIMU.getTiltAngle (BalanceIMU.update atan2f s (some smp) t).1 =
      specFilteredTilt atan2f s.currentTiltAngle smp.accelX smp.accelZ smp.gyroX
        (BalanceIMU.deltaTimeSec t s.lastUpdateTime) := by
  rw [BalanceIMU.update_some_eq]
  show BalanceIMU.nextTilt atan2f s smp t = _
  unfold BalanceIMU.nextTilt BalanceIMU.applyComplementaryFilter
    BalanceIMU.calculateTiltFromAccel specFilteredTilt BalanceIMU.TILT_ALPHA
  simp only [BalanceIMU.readInto]
  ring

/-- C6: when the underlying sensor read fails (`readSensors` returns
`false`), `BalanceIMU::update` skips the whole cycle: the state (filtered
angle, stored readings, last-update timestamp) is unchanged and no observer
notification is issued. -/
theorem update_skips_cycle_on_read_failure (atan2f : ℚ → ℚ → ℚ) (s : ImuState) (t : ℕ) :
    BalanceIMU.update atan2f s none t = (s, []) := rfl

/-- A mapped emergency-notification list contains no `tiltChange` record. -/
lemma count_tiltChange_in_emergency_map (l : List ℕ) (v a : ℚ) (i : ℕ) :
    (l.map (fun j => Notification.balanceEmergency j v)).count
      (Notification.tiltChange i a) = 0 := by
  rw [List.count_eq_zero]
  intro hmem
  rcases List.mem_map.mp hmem with ⟨j, _, hj⟩
  exact Notification.noConfusion hj

/-- C2: on every successful `BalanceIMU::update` whose resulting filtered
tilt angle exceeds 45.0° in absolute value, `onBalanceEmergency` is delivered
to every registered observer on that very update — with no hypothesis on the
tilt-change condition, hence independently of whether `onTiltChange` also
fired. -/
theorem emergency_notification_every_update (atan2f : ℚ → ℚ → ℚ) (s : ImuState)
    (smp : ImuSample) (t : ℕ) (i : ℕ) (hi : i < s.observerCount)
    (h45 : 45 < |(BalanceIMU.update atan2f s (some smp) t).1.currentTiltAngle|) :
    Notification.balanceEmergency i
        (BalanceIMU.update atan2f s (some smp) t).1.currentTiltAngle
      ∈ (BalanceIMU.update atan2f s (some smp) t).2 := by
  rw [BalanceIMU.update_some_eq] at h45 ⊢
  dsimp only at h45 ⊢
  apply List.mem_append_right
  rw [if_pos h45]
  exact List.mem_map.mpr ⟨i, List.mem_range.mpr hi, rfl⟩

/-- C2 witness: a concrete update (previous angle 60°, zero gyro, level
accelerometer model) whose new filtered angle 58.8° triggers the emergency
callback on observer 0. -/
theorem emergency_notification_every_update_witness :
    Notification.balanceEmergency 0
        (BalanceIMU.update (fun _ _ => 0) ⟨0, 0, 0, 0, 0, 0, 60, 0, 1⟩
          (some ⟨0, 0, 1, 0, 0, 0⟩) 10).1.currentTiltAngle
      ∈ (BalanceIMU.update (fun _ _ => 0) ⟨0, 0, 0, 0, 0, 0, 60, 0, 1⟩
          (some ⟨0, 0, 1, 0, 0, 0⟩) 10).2 :=
  emergency_notification_every_update (fun _ _ => 0) ⟨0, 0, 0, 0, 0, 0, 60, 0, 1⟩
    ⟨0, 0, 1, 0, 0, 0⟩ 10 0 (by decide)
    (by norm_num [BalanceIMU.update_some_eq, BalanceIMU.nextTilt,
      BalanceIMU.applyComplementaryFilter, BalanceIMU.calculateTiltFromAccel,
      BalanceIMU.readInto, BalanceIMU.deltaTimeSec, ulSub, BalanceIMU.TILT_ALPHA,
      ARDUINO_PI, lt_abs])

/-- C5: on a successful `BalanceIMU::update`, each registered observer
receives `onTiltChange` with the new angle exactly once iff the absolute
difference between new and previous filtered angle strictly exceeds 1.0°;
when the difference is at most 1.0°, no tilt-change notification fires at
all. -/
theorem tilt_change_notification_iff (atan2f : ℚ → ℚ → ℚ) (s : ImuState)
    (smp : ImuSample) (t : ℕ) (i : ℕ) (hi : i < s.observerCount) :
    ((BalanceIMU.update atan2f s (some smp) t).2.count
        (Notification.tiltChange i
          (BalanceIMU.update atan2f s (some smp) t).1.currentTiltAngle) = 1
      ↔ 1 < |(BalanceIMU.update atan2f s (some smp) t).1.currentTiltAngle
              - s.currentTiltAngle|)
    ∧ (|(BalanceIMU.update atan2f s (some smp) t).1.currentTiltAngle
          - s.currentTiltAngle| ≤ 1 →
        ∀ j a, Notification.tiltChange j a ∉ (BalanceIMU.update atan2f s (some smp) t).2) := by
  rw [BalanceIMU.update_some_eq]
  dsimp only
  constructor
  · constructor
    · intro hcount
      by_contra hnot
      rw [if_neg hnot, List.nil_append] at hcount
      revert hcount
      split
      · rw [count_tiltChange_in_emergency_map]
        exact one_ne_zero ∘ Eq.symm
      · simp
    · intro hlt
      rw [if_pos hlt, List.count_append]
      have hinj : Function.Injective
          (fun j => Notification.tiltChange j (BalanceIMU.nextTilt atan2f s smp t)) := by
        intro a b hab
        simpa using hab
      rw [List.count_map_of_injective _ _ hinj,
        List.count_eq_one_of_mem (List.nodup_range _) (List.mem_range.mpr hi)]
      split
      · rw [count_tiltChange_in_emergency_map]
      · rfl
  · intro hle j a hmem
    rcases List.mem_append.mp hmem with h | h
    · rw [if_neg (not_lt.mpr hle)] at h
      exact (List.not_mem_nil _) h
    · revert h
      split
      · intro h
        rcases List.mem_map.mp h with ⟨k, _, hk⟩
        exact Notification.noConfusion hk
      · exact List.not_mem_nil _

/-- C5 witness: previous angle 60°, new angle 58.8° (difference 1.2° > 1°):
observer 0 receives exactly one tilt-change callback. -/
theorem tilt_change_notification_iff_witness :
    (BalanceIMU.update (fun _ _ => 0) ⟨0, 0, 0, 0, 0, 0, 60, 0, 1⟩
        (some ⟨0, 0, 1, 0, 0, 0⟩) 10).2.count
      (Notification.tiltChange 0
        (BalanceIMU.update (fun _ _ => 0) ⟨0, 0, 0, 0, 0, 0, 60, 0, 1⟩
          (some ⟨0, 0, 1, 0, 0, 0⟩) 10).1.currentTiltAngle) = 1 :=
  (tilt_change_notification_iff (fun _ _ => 0) ⟨0, 0, 0, 0, 0, 0, 60, 0, 1⟩
    ⟨0, 0, 1, 0, 0, 0⟩ 10 0 (by decide)).1.mpr
    (by norm_num [BalanceIMU.update_some_eq, BalanceIMU.nextTilt,
      BalanceIMU.applyComplementaryFilter, BalanceIMU.calculateTiltFromAccel,
      BalanceIMU.readInto, BalanceIMU.deltaTimeSec, ulSub, BalanceIMU.TILT_ALPHA,
      ARDUINO_PI, lt_abs])

/-- C3 counterexample: starting upright (filtered angle 0) and feeding one
update whose accelerometer-derived tilt is 0° (within [-90°, 90°]) but whose
gyro rate is 10 rad/s over a 1 s delta, the filtered angle after the update
is 1764/π ≈ 561° — far outside [-90°, 90°].  The gyro-integration term of
`applyComplementaryFilter` is unbounded, so the claimed invariant fails. -/
theorem tilt_range_counterexample :
    |BalanceIMU.calculateTiltFromAccel (fun _ _ => 0)
        (BalanceIMU.readInto ⟨0, 0, 0, 0, 0, 0, 0, 0, 0⟩ ⟨0, 0, 1, 10, 0, 0⟩)| ≤ 90
    ∧ 90 < BalanceIMU.getTiltAngle
        (BalanceIMU.runUpdates (fun _ _ => 0) ⟨0, 0, 0, 0, 0, 0, 0, 0, 0⟩
          [(⟨0, 0, 1, 10, 0, 0⟩, 1000)]) := by
  constructor
  · norm_num [BalanceIMU.calculateTiltFromAccel, BalanceIMU.readInto, ARDUINO_PI]
  · norm_num [BalanceIMU.runUpdates, BalanceIMU.update_some_eq, BalanceIMU.nextTilt,
      BalanceIMU.applyComplementaryFilter, BalanceIMU.calculateTiltFromAccel,
      BalanceIMU.readInto, BalanceIMU.deltaTimeSec, ulSub, BalanceIMU.TILT_ALPHA,
      ARDUINO_PI, BalanceIMU.getTiltAngle]

/-- C3 amended: for every sequence of successful updates whose
accelerometer-derived tilt inputs lie within [-90°, 90°] **and whose gyro
rate inputs are zero** (the gyro-integration term is unbounded, as the
counterexample shows), the filtered tilt angle stays within [-90°, 90°]:
with zero gyro rate each update is the convex combination
`0.98·previous + 0.02·accelTilt` of two in-range values. -/
theorem tilt_range_invariant_amended (atan2f : ℚ → ℚ → ℚ) (s : ImuState)
    (inputs : List (ImuSample × ℕ))
    (hs : |BalanceIMU.getTiltAngle s| ≤ 90)
    (hin : ∀ p ∈ inputs,
      |atan2f p.1.accelX p.1.accelZ * 180 / ARDUINO_PI| ≤ 90 ∧ p.1.gyroX = 0) :
    |BalanceIMU.getTiltAngle (BalanceIMU.runUpdates atan2f s inputs)| ≤ 90 := by
  induction inputs generalizing s with
  | nil => exact hs
  | cons p rest ih =>
    obtain ⟨smp, t⟩ := p
    have hp := hin (smp, t) (List.mem_cons_self _ _)
    have hrest : ∀ q ∈ rest,
        |atan2f q.1.accelX q.1.accelZ * 180 / ARDUINO_PI| ≤ 90 ∧ q.1.gyroX = 0 :=
      fun q hq => hin q (List.mem_cons_of_mem _ hq)
    show |BalanceIMU.getTiltAngle
      (BalanceIMU.runUpdates atan2f (BalanceIMU.update atan2f s (some smp) t).1 rest)| ≤ 90
    apply ih _ _ hrest
    have heq : BalanceIMU.getTiltAngle (BalanceIMU.update atan2f s (some smp) t).1
        = BalanceIMU.nextTilt atan2f s smp t := rfl
    rw [heq]
    have hcalc : BalanceIMU.calculateTiltFromAccel atan2f (BalanceIMU.readInto s smp)
        = atan2f smp.accelX smp.accelZ * 180 / ARDUINO_PI := rfl
    have htilt : BalanceIMU.nextTilt atan2f s smp t
        = BalanceIMU.TILT_ALPHA
            * (s.currentTiltAngle
               + smp.gyroX * 180 / ARDUINO_PI * BalanceIMU.deltaTimeSec t s.lastUpdateTime)
          + (1 - BalanceIMU.TILT_ALPHA)
            * (atan2f smp.accelX smp.accelZ * 180 / ARDUINO_PI) := by
      unfold BalanceIMU.nextTilt BalanceIMU.applyComplementaryFilter
      rw [hcalc]
      show BalanceIMU.TILT_ALPHA * (s.currentTiltAngle + smp.gyroX * 180 / ARDUINO_PI * _)
          + _ = _
      ring
    rw [htilt, hp.2]
    have hprev : |s.currentTiltAngle| ≤ 90 := hs
    have haccel := hp.1
    have h1 : (0:ℚ) * 180 / ARDUINO_PI * BalanceIMU.deltaTimeSec t s.lastUpdateTime = 0 := by
      norm_num
    rw [h1, add_zero]
    calc |BalanceIMU.TILT_ALPHA * s.currentTiltAngle
            + (1 - BalanceIMU.TILT_ALPHA) * (atan2f smp.accelX smp.accelZ * 180 / ARDUINO_PI)|
        ≤ |BalanceIMU.TILT_ALPHA * s.currentTiltAngle|
            + |(1 - BalanceIMU.TILT_ALPHA) * (atan2f smp.accelX smp.accelZ * 180 / ARDUINO_PI)| :=
          abs_add _ _
      _ = BalanceIMU.TILT_ALPHA * |s.currentTiltAngle|
            + (1 - BalanceIMU.TILT_ALPHA) * |atan2f smp.accelX smp.accelZ * 180 / ARDUINO_PI| := by
          rw [abs_mul, abs_mul,
            show |BalanceIMU.TILT_ALPHA| = BalanceIMU.TILT_ALPHA from by
              rw [abs_of_nonneg]
              norm_num [BalanceIMU.TILT_ALPHA],
            show |1 - BalanceIMU.TILT_ALPHA| = 1 - BalanceIMU.TILT_ALPHA from by
              rw [abs_of_nonneg]
              norm_num [BalanceIMU.TILT_ALPHA]]
      _ ≤ BalanceIMU.TILT_ALPHA * 90 + (1 - BalanceIMU.TILT_ALPHA) * 90 := by
          have h98 : (0:ℚ) ≤ BalanceIMU.TILT_ALPHA := by norm_num [BalanceIMU.TILT_ALPHA]
          have h02 : (0:ℚ) ≤ 1 - BalanceIMU.TILT_ALPHA := by norm_num [BalanceIMU.TILT_ALPHA]
          exact add_le_add (mul_le_mul_of_nonneg_left hprev h98)
            (mul_le_mul_of_nonneg_left haccel h02)
      _ = 90 := by norm_num [BalanceIMU.TILT_ALPHA]

/-- C3 amended witness: one level, gyro-free update from the upright state
keeps the filtered angle within [-90°, 90°]. -/
theorem tilt_range_invariant_amended_witness :
    |BalanceIMU.getTiltAngle
        (BalanceIMU.runUpdates (fun _ _ => 0) ⟨0, 0, 0, 0, 0, 0, 0, 0, 0⟩
          [(⟨0, 0, 1, 0, 0, 0⟩, 10)])| ≤ 90 :=
  tilt_range_invariant_amended (fun _ _ => 0) ⟨0, 0, 0, 0, 0, 0, 0, 0, 0⟩
    [(⟨0, 0, 1, 0, 0, 0⟩, 10)]
    (by norm_num [BalanceIMU.getTiltAngle])
    (by intro p hp
        rw [List.mem_singleton] at hp
        subst hp
        norm_num [ARDUINO_PI])

/-- C7 counterexample: the code computes the delta by plain `unsigned long`
subtraction, with no epsilon clamp.  Two wrapped inputs (`currentTime`
numerically below `lastUpdateTime`) give two *different* deltas — so no
fixed epsilon is substituted — and the first is over an hour, i.e. huge:
`deltaTimeSec 0 1 = 4294967.295 s`. -/
theorem delta_clamp_counterexample :
    BalanceIMU.deltaTimeSec 0 1 ≠ BalanceIMU.deltaTimeSec 0 2
    ∧ (3600 : ℚ) < BalanceIMU.deltaTimeSec 0 1 := by
  constructor
  · norm_num [BalanceIMU.deltaTimeSec, ulSub]
  · norm_num [BalanceIMU.deltaTimeSec, ulSub]

/-- C7 amended: the delta is `((currentTime - lastUpdateTime) mod 2^32) /
1000` seconds.  It is never negative, and under a genuine 32-bit timer wrap
(current = (last + elapsed) mod 2^32 with elapsed < 2^32) it equals the true
elapsed time — the overflow is handled by modular arithmetic, not by
clamping to an epsilon. -/
theorem delta_wraparound_amended :
    (∀ c l : ℕ, 0 ≤ BalanceIMU.deltaTimeSec c l)
    ∧ (∀ l e : ℕ, l < 4294967296 → e < 4294967296 →
        BalanceIMU.deltaTimeSec ((l + e) % 4294967296) l = (e : ℚ) / 1000) := by
  constructor
  · intro c l
    unfold BalanceIMU.deltaTimeSec
    positivity
  · intro l e hl he
    unfold BalanceIMU.deltaTimeSec
    rw [show ulSub ((l + e) % 4294967296) l = e from by unfold ulSub; omega]

/-- C7 amended witness: a wrap just before overflow (last = 4294967290,
20 ms elapse, `millis()` reads 14) yields a delta of exactly 0.02 s. -/
theorem delta_wraparound_amended_witness :
    BalanceIMU.deltaTimeSec ((4294967290 + 20) % 4294967296) 4294967290 = (20 : ℚ) / 1000 :=
  delta_wraparound_amended.2 4294967290 20 (by norm_num) (by norm_num)

/-! ## DriveCoordinator and BalanceMotorController
(src/instinctus_m4/DriveCoordinator.cpp, BalanceMotorController.cpp) -/

/-- A command issued to the drive hardware through `MotorInterface`. -/
inductive MotorCmd where
  | stopLeft
  | stopRight
  | setVelocityLeft (rpm : ℚ)
  | setVelocityRight (rpm : ℚ)
deriving DecidableEq

namespace DriveCoordinator

/-- `DriveCoordinator::stop`: `leftMotor->stop(); rightMotor->stop();`, each
guarded by a null check on the motor pointer. -/
def stop (hasLeft hasRight : Bool) : List MotorCmd :=
  (if hasLeft then [MotorCmd.stopLeft] else [])
    ++ (if hasRight then [MotorCmd.stopRight] else [])

/-- `DriveCoordinator::setMotorSpeeds`: `leftMotor->setVelocity(leftRpm);
rightMotor->setVelocity(rightRpm);`, each guarded by a null check. -/
def setMotorSpeeds (hasLeft hasRight : Bool) (leftRpm rightRpm : ℚ) : List MotorCmd :=
  (if hasLeft then [MotorCmd.setVelocityLeft leftRpm] else [])
    ++ (if hasRight then [MotorCmd.setVelocityRight rightRpm] else [])

end DriveCoordinator

/-- The state of `BalanceMotorController`: the `emergencyStopActive` flag
(`false` = Armed, `true` = Stopped). -/
structure ControllerState where
  emergencyStopActive : Bool
deriving DecidableEq

/-- The observer events a `BalanceMotorController` can receive, plus the
external reset call. -/
inductive ControllerEvent where
  | tiltChange (angle : ℚ)
  | balanceEmergency (angle : ℚ)
  | resetEmergencyStop
deriving DecidableEq

namespace BalanceMotorController

/-- The constructor state: `emergencyStopActive(false)` (Armed), wired to a
`DriveCoordinator` whose two motor pointers are both non-null. -/
def mk0 : ControllerState :=
  ⟨false⟩

/-- `BalanceMotorController::onTiltChange`: early-returns when the emergency
stop is latched; otherwise the control law is an explicit TODO placeholder,
so no motor command is issued on either path. -/
def onTiltChange (s : ControllerState) (_angle : ℚ) : ControllerState × List MotorCmd :=
  if s.emergencyStopActive then (s, [])
  else (s, [])

/-- `BalanceMotorController::onBalanceEmergency`: `motors->stop();
emergencyStopActive = true;` (the drive system has both motors). -/
def onBalanceEmergency (s : ControllerState) (_angle : ℚ) : ControllerState × List MotorCmd :=
  ({ s with emergencyStopActive := true }, DriveCoordinator.stop true true)

/-- `BalanceMotorController::resetEmergencyStop`: `emergencyStopActive = false;`. -/
def resetEmergencyStop (s : ControllerState) : ControllerState :=
  { s with emergencyStopActive := false }

/-- `BalanceMotorController::isEmergencyStopped`. -/
def isEmergencyStopped (s : ControllerState) : Bool :=
  s.emergencyStopActive

/-- Dispatch of one incoming event to the controller's handler. -/
def handleEvent (s : ControllerState) : ControllerEvent → ControllerState × List MotorCmd
  | ControllerEvent.tiltChange a => onTiltChange s a
  | ControllerEvent.balanceEmergency a => onBalanceEmergency s a
  | ControllerEvent.resetEmergencyStop => (resetEmergencyStop s, [])

/-- A run of the controller over a sequence of events: final state and the
concatenated motor-command trace. -/
def runController (s : ControllerState) : List ControllerEvent → ControllerState × List MotorCmd
  | [] => (s, [])
  | e :: es =>
    let r := handleEvent s e
    let rest := runController r.1 es
    (rest.1, r.2 ++ rest.2)

end BalanceMotorController

/-- A run over tilt-change events only leaves the state unchanged and issues
no motor command (the handler early-returns when latched and is a placeholder
otherwise). -/
lemma runController_tiltChange_only (s : ControllerState) (evs : List ControllerEvent)
    (h : ∀ e ∈ evs, ∃ a, e = ControllerEvent.tiltChange a) :
    BalanceMotorController.runController s evs = (s, []) := by
  induction evs with
  | nil => rfl
  | cons e es ih =>
    obtain ⟨a, rfl⟩ := h e (List.mem_cons_self _ _)
    have hstep : BalanceMotorController.handleEvent s (ControllerEvent.tiltChange a) = (s, []) := by
      show BalanceMotorController.onTiltChange s a = (s, [])
      unfold BalanceMotorController.onTiltChange
      split <;> rfl
    show (let r := BalanceMotorController.handleEvent s (ControllerEvent.tiltChange a)
          let rest := BalanceMotorController.runController r.1 es
          (rest.1, r.2 ++ rest.2)) = (s, [])
    rw [hstep]
    have ihres := ih (fun e he => h e (List.mem_cons_of_mem _ he))
    simp only [ihres]
    rfl

/-- C1: the safety interlock starts Armed; an emergency-tilt notification
issues a stop command to each of the two drive actuators and latches the
Stopped state; while Stopped, any sequence of tilt-change notifications
issues no motor command and leaves the latch set; an explicit
`resetEmergencyStop()` returns the controller to the Armed start state, so
normal dispatch resumes. -/
theorem safety_interlock_latch :
    BalanceMotorController.mk0.emergencyStopActive = false
    ∧ (∀ (s : ControllerState) (a : ℚ),
        BalanceMotorController.handleEvent s (ControllerEvent.balanceEmergency a)
          = (⟨true⟩, [MotorCmd.stopLeft, MotorCmd.stopRight]))
    ∧ (∀ (s : ControllerState) (evs : List ControllerEvent),
        s.emergencyStopActive = true →
        (∀ e ∈ evs, ∃ a, e = ControllerEvent.tiltChange a) →
        BalanceMotorController.runController s evs = (s, []))
    ∧ (∀ s : ControllerState,
        BalanceMotorController.handleEvent s ControllerEvent.resetEmergencyStop
          = (BalanceMotorController.mk0, [])) := by
  refine ⟨rfl, ?_, ?_, ?_⟩
  · intro s a
    cases s
    rfl
  · intro s evs _ h
    exact runController_tiltChange_only s evs h
  · intro s
    cases s
    rfl

/-- C1 witness: from the latched state, a concrete tilt-change notification
at 50° produces no motor command and leaves the latch set. -/
theorem safety_interlock_latch_witness :
    BalanceMotorController.runController ⟨true⟩ [ControllerEvent.tiltChange 50]
      = (⟨true⟩, []) :=
  safety_interlock_latch.2.2.1 ⟨true⟩ [ControllerEvent.tiltChange 50] rfl
    (fun _e he => ⟨50, List.mem_singleton.mp he⟩)

/-- C9: `BalanceMotorController::onTiltChange` never issues a motor command
and never changes the controller state — in the Armed state as well as the
Stopped state, for every angle — because the balance control law is an
unimplemented placeholder; consequently any sequence of tilt-change
notifications produces an empty motor-command trace. -/
theorem onTiltChange_no_motor_command :
    (∀ (s : ControllerState) (a : ℚ),
      BalanceMotorController.onTiltChange s a = (s, []))
    ∧ (∀ (s : ControllerState) (evs : List ControllerEvent),
        (∀ e ∈ evs, ∃ a, e = ControllerEvent.tiltChange a) →
        (BalanceMotorController.runController s evs).2 = []) := by
  constructor
  · intro s a
    unfold BalanceMotorController.onTiltChange
    split <;> rfl
  · intro s evs h
    rw [runController_tiltChange_only s evs h]

/-- C9 witness: in the Armed state, tilt-change notifications at 10° and
-3° issue no motor command. -/
theorem onTiltChange_no_motor_command_witness :
    (BalanceMotorController.runController ⟨false⟩
      [ControllerEvent.tiltChange 10, ControllerEvent.tiltChange (-3)]).2 = [] :=
  onTiltChange_no_motor_command.2 ⟨false⟩
    [ControllerEvent.tiltChange 10, ControllerEvent.tiltChange (-3)]
    (by intro e he
        rcases List.mem_cons.mp he with rfl | he2
        · exact ⟨10, rfl⟩
        · exact ⟨-3, List.mem_singleton.mp he2⟩)

/-! ## VL53L4CXInterface (src/instinctus_m4/VL53L4CXInterface.cpp) -/

/-- One entry of `VL53L4CX_MultiRangingData_t::RangeData`: the vendor range
status code and the measured distance in mm. -/
structure RangeReturn where
  rangeStatus : ℕ
  rangeMilliMeter : ℚ
deriving DecidableEq

/-- Vendor status code `VL53L4CX_RANGESTATUS_RANGE_VALID` (ST ULD header). -/
def VL53L4CX_RANGESTATUS_RANGE_VALID : ℕ := 0

/-- Vendor status code `VL53L4CX_RANGESTATUS_RANGE_VALID_MIN_RANGE_CLIPPED`
(ST ULD header). -/
def VL53L4CX_RANGESTATUS_RANGE_VALID_MIN_RANGE_CLIPPED : ℕ := 3

namespace VL53L4CXInterface

/-- The validity test of the selection loop:
`RangeStatus == VL53L4CX_RANGESTATUS_RANGE_VALID ||
RangeStatus == VL53L4CX_RANGESTATUS_RANGE_VALID_MIN_RANGE_CLIPPED`. -/
def rangeStatusIsValid (st : ℕ) : Bool :=
  st == VL53L4CX_RANGESTATUS_RANGE_VALID
    || st == VL53L4CX_RANGESTATUS_RANGE_VALID_MIN_RANGE_CLIPPED

/-- The validity test applied to a whole range return. -/
def validReturn (r : RangeReturn) : Bool :=
  rangeStatusIsValid r.rangeStatus

/-- One iteration of the selection loop of `readDistance`: if the return has
a valid status and is strictly closer than the best so far, it becomes the
best and the `found` flag is set. -/
def scanStep (acc : ℚ × Bool) (r : RangeReturn) : ℚ × Bool :=
  if rangeStatusIsValid r.rangeStatus = true ∧ r.rangeMilliMeter < acc.1 then
    (r.rangeMilliMeter, true)
  else acc

/-- Modelled from the spec: `Config::NO_TARGET_DISTANCE` is defined in the
InstinctusKit library, which is not in this tree.  Per the spec it is the
distinguished "no reading" sentinel seeding the closest-valid scan, distinct
from any real measurement; this predicate states that property for a given
sentinel value and ranging data: every valid return reports a distance
strictly below the sentinel. -/
def sentinelAboveAllValid (noTargetDistance : ℚ) (rangeData : List RangeReturn) : Prop :=
  ∀ r ∈ rangeData, rangeStatusIsValid r.rangeStatus = true →
    r.rangeMilliMeter < noTargetDistance

/-- `VL53L4CXInterface::readDistance`.  `dataReadyResult` is the outcome of
`VL53L4CX_GetMeasurementDataReady` (`none` = the call returned an error),
`rangingResult` the outcome of `VL53L4CX_GetMultiRangingData` (`none` = error;
otherwise the first `NumberOfObjectsFound` entries of `RangeData`).
`noTargetDistance` is `Config::NO_TARGET_DISTANCE`.  Returns `some d` when
the function returns `true` with `distance = d`, `none` when it returns
`false`. -/
def readDistance (noTargetDistance : ℚ) (dataReadyResult : Option Bool)
    (rangingResult : Option (List RangeReturn)) : Option ℚ :=
  match dataReadyResult with
  | none => none
  | some dataReady =>
    if dataReady = false then none
    else
      match rangingResult with
      | none => none
      | some rangeData =>
        let res := rangeData.foldl scanStep (noTargetDistance, false)
        if res.2 then some res.1 else none

end VL53L4CXInterface

/-- The specified target selection: the minimum distance over exactly the
valid-status returns, or `none` when no return is valid. -/
def closestValid (rangeData : List RangeReturn) : Option ℚ :=
  match (rangeData.filter VL53L4CXInterface.validReturn).map
      (fun r => r.rangeMilliMeter) with
  | [] => none
  | d :: ds => some (ds.foldl min d)

/-- Once the `found` flag is set with best-so-far `c`, the scan loop computes
the running minimum of `c` and the valid returns. -/
lemma foldl_scanStep_found (l : List RangeReturn) (c : ℚ) :
    l.foldl VL53L4CXInterface.scanStep (c, true) =
      (((l.filter VL53L4CXInterface.validReturn).map
          (fun r => r.rangeMilliMeter)).foldl min c, true) := by
  induction l generalizing c with
  | nil => rfl
  | cons r l ih =>
    by_cases hv : VL53L4CXInterface.validReturn r = true
    · by_cases hlt : r.rangeMilliMeter < c
      · rw [show (r :: l).foldl VL53L4CXInterface.scanStep (c, true)
              = l.foldl VL53L4CXInterface.scanStep (r.rangeMilliMeter, true) from by
            rw [List.foldl_cons, VL53L4CXInterface.scanStep, if_pos ⟨hv, hlt⟩]]
        rw [ih]
        rw [List.filter_cons_of_pos hv, List.map_cons, List.foldl_cons]
        rw [min_eq_right (le_of_lt hlt)]
      · rw [show (r :: l).foldl VL53L4CXInterface.scanStep (c, true)
              = l.foldl VL53L4CXInterface.scanStep (c, true) from by
            rw [List.foldl_cons, VL53L4CXInterface.scanStep,
              if_neg (fun hc => hlt hc.2)]]
        rw [ih]
        rw [List.filter_cons_of_pos hv, List.map_cons, List.foldl_cons]
        rw [min_eq_left (le_of_not_lt hlt)]
    · rw [show (r :: l).foldl VL53L4CXInterface.scanStep (c, true)
            = l.foldl VL53L4CXInterface.scanStep (c, true) from by
          rw [List.foldl_cons, VL53L4CXInterface.scanStep,
            if_neg (fun hc => hv hc.1)]]
      rw [ih, List.filter_cons_of_neg hv]

/-- Before any valid return is seen, the scan keeps the sentinel; the first
valid return (strictly below the sentinel) switches to minimum tracking. -/
lemma foldl_scanStep_notfound (l : List RangeReturn) (c : ℚ)
    (hc : ∀ r ∈ l, VL53L4CXInterface.rangeStatusIsValid r.rangeStatus = true →
      r.rangeMilliMeter < c) :
    l.foldl VL53L4CXInterface.scanStep (c, false) =
      match (l.filter VL53L4CXInterface.validReturn).map
          (fun r => r.rangeMilliMeter) with
      | [] => (c, false)
      | d :: ds => (ds.foldl min d, true) := by
  induction l with
  | nil => rfl
  | cons r l ih =>
    by_cases hv : VL53L4CXInterface.validReturn r = true
    · have hlt : r.rangeMilliMeter < c := hc r (List.mem_cons_self _ _) hv
      rw [show (r :: l).foldl VL53L4CXInterface.scanStep (c, false)
            = l.foldl VL53L4CXInterface.scanStep (r.rangeMilliMeter, true) from by
          rw [List.foldl_cons, VL53L4CXInterface.scanStep, if_pos ⟨hv, hlt⟩]]
      rw [foldl_scanStep_found]
      rw [List.filter_cons_of_pos hv, List.map_cons]
    · rw [show (r :: l).foldl VL53L4CXInterface.scanStep (c, false)
            = l.foldl VL53L4CXInterface.scanStep (c, false) from by
          rw [List.foldl_cons, VL53L4CXInterface.scanStep,
            if_neg (fun hcon => hv hcon.1)]]
      rw [ih (fun q hq hqv => hc q (List.mem_cons_of_mem _ hq) hqv),
        List.filter_cons_of_neg hv]

/-- C8: when ranging data is ready and the multi-ranging read succeeds,
`VL53L4CXInterface::readDistance` reports exactly the minimum distance over
the valid-status returns (invalid returns are ignored even if numerically
closer), and reports no new data (`false`) when no return is valid —
provided the `Config::NO_TARGET_DISTANCE` sentinel exceeds every valid
reported distance, which is what makes it a distinguished sentinel. -/
theorem readDistance_min_valid (noTargetDistance : ℚ) (rangeData : List RangeReturn)
    (hsent : VL53L4CXInterface.sentinelAboveAllValid noTargetDistance rangeData) :
    VL53L4CXInterface.readDistance noTargetDistance (some true) (some rangeData)
      = closestValid rangeData := by
  unfold VL53L4CXInterface.readDistance closestValid
  simp only [Bool.true_eq_false, if_false]
  rw [foldl_scanStep_notfound rangeData noTargetDistance hsent]
  cases hmatch : (rangeData.filter VL53L4CXInterface.validReturn).map
      (fun r => r.rangeMilliMeter) with
  | nil => rfl
  | cons d ds => rfl

/-- C8 witness: the spec's own scenario — the numerically closest return
(100 mm) is flagged invalid (status 4) and a farther return (500 mm) is
valid (status 0): the poll reports the farther, valid one. -/
theorem readDistance_min_valid_witness :
    VL53L4CXInterface.readDistance 10000 (some true) (some [⟨4, 100⟩, ⟨0, 500⟩])
      = some 500 :=
  (readDistance_min_valid 10000 [⟨4, 100⟩, ⟨0, 500⟩]
    (by intro r hr _hv
        rcases List.mem_cons.mp hr with rfl | hr2
        · show (100 : ℚ) < 10000
          norm_num
        · rw [List.mem_singleton.mp hr2]
          show (500 : ℚ) < 10000
          norm_num)).trans rfl

/-! ## ToFSensor (src/instinctus_m4/ToFSensor.cpp, header in src/unnamed/part_000) -/

/-- The mutable fields of class `ToFSensor`: `_currentDistance` (mm, `-1.0`
= no valid reading yet) and `_initialized`. -/
structure ToFState where
  currentDistance : ℚ
  initialized : Bool
deriving DecidableEq

/-- An operation performed on a `ToFSensor`: an `initialize()` attempt
(with the outcomes of the underlying `_tof->initialize()` and
`_tof->startRanging()` hardware calls) or an `update()` cycle (with the
outcome of `_tof->readDistance(distance)`: `none` = no new data). -/
inductive ToFOp where
  | init (hwOk rangingOk : Bool)
  | update (readResult : Option ℚ)
deriving DecidableEq

namespace ToFSensor

/-- The constructor state: `_currentDistance(-1.0f), _initialized(false)`
(with a non-null `_tof` hardware pointer). -/
def mk0 : ToFState :=
  ⟨-1, false⟩

/-- `ToFSensor::initialize` (named `initSensor` here): fails without state
change when `_tof->initialize()` or `_tof->startRanging()` fails, otherwise
sets `_initialized = true` and returns `true`. -/
def initSensor (s : ToFState) (hwOk rangingOk : Bool) : ToFState × Bool :=
  if hwOk = false then (s, false)
  else if rangingOk = false then (s, false)
  else ({ s with initialized := true }, true)

/-- `ToFSensor::update`: early-returns when not initialized or when no new
data is available; otherwise stores the new distance and notifies the
observer (modelled by its threshold, `none` = no observer set) when the new
distance is below the observer's threshold.  The returned list holds the
distances passed to `onObstacleDetection`. -/
def update (observer : Option ℚ) (s : ToFState) (readResult : Option ℚ) :
    ToFState × List ℚ :=
  if s.initialized = false then (s, [])
  else
    match readResult with
    | none => (s, [])
    | some d =>
      let s' := { s with currentDistance := d }
      match observer with
      | none => (s', [])
      | some threshold =>
        if s'.currentDistance < threshold then (s', [s'.currentDistance])
        else (s', [])

/-- `ToFSensor::getDistance`. -/
def getDistance (s : ToFState) : ℚ :=
  s.currentDistance

/-- A run of the sensor object over a sequence of operations, collecting all
observer notifications. -/
def runOps (observer : Option ℚ) (s : ToFState) : List ToFOp → ToFState × List ℚ
  | [] => (s, [])
  | op :: ops =>
    let r := match op with
      | ToFOp.init h g => ((initSensor s h g).1, ([] : List ℚ))
      | ToFOp.update rr => update observer s rr
    let rest := runOps observer r.1 ops
    (rest.1, r.2 ++ rest.2)

end ToFSensor

/-- `update` on an uninitialized sensor is a no-op. -/
lemma tof_update_uninitialized (observer : Option ℚ) (s : ToFState) (rr : Option ℚ)
    (h : s.initialized = false) :
    ToFSensor.update observer s rr = (s, []) := by
  unfold ToFSensor.update
  rw [h]
  rfl

/-- `update` with no new data is a no-op. -/
lemma tof_update_none (observer : Option ℚ) (s : ToFState) :
    ToFSensor.update observer s none = (s, []) := by
  unfold ToFSensor.update
  split <;> rfl

/-- A failed `initialize()` attempt leaves the state unchanged. -/
lemma tof_initSensor_fail (s : ToFState) (h g : Bool) (hfail : h = false ∨ g = false) :
    ToFSensor.initSensor s h g = (s, false) := by
  unfold ToFSensor.initSensor
  rcases hfail with rfl | rfl
  · rfl
  · cases h <;> rfl

/-- `initialize()` never touches `_currentDistance`. -/
lemma tof_initSensor_distance (s : ToFState) (h g : Bool) :
    (ToFSensor.initSensor s h g).1.currentDistance = s.currentDistance := by
  unfold ToFSensor.initSensor
  cases h <;> cases g <;> rfl

/-- Over any operation sequence containing no successful distance read, the
stored distance is unchanged and nothing is notified. -/
lemma tof_runOps_no_valid_read (observer : Option ℚ) (ops : List ToFOp) :
    ∀ s : ToFState, (∀ op ∈ ops, ∀ d : ℚ, op ≠ ToFOp.update (some d)) →
      (ToFSensor.runOps observer s ops).1.currentDistance = s.currentDistance
        ∧ (ToFSensor.runOps observer s ops).2 = [] := by
  induction ops with
  | nil => exact fun s _ => ⟨rfl, rfl⟩
  | cons op ops ih =>
    intro s h
    have hops : ∀ q ∈ ops, ∀ d : ℚ, q ≠ ToFOp.update (some d) :=
      fun q hq => h q (List.mem_cons_of_mem _ hq)
    cases op with
    | init hw rg =>
      have := ih (ToFSensor.initSensor s hw rg).1 hops
      refine ⟨?_, ?_⟩
      · show (ToFSensor.runOps observer (ToFSensor.initSensor s hw rg).1 ops).1.currentDistance
          = s.currentDistance
        rw [this.1, tof_initSensor_distance]
      · show ([] : List ℚ) ++ (ToFSensor.runOps observer (ToFSensor.initSensor s hw rg).1 ops).2
          = []
        rw [this.2]
        rfl
    | update rr =>
      have hrr : rr = none := by
        cases rr with
        | none => rfl
        | some d => exact absurd rfl (h (ToFOp.update (some d)) (List.mem_cons_self _ _) d)
      subst hrr
      have hstep : ToFSensor.update observer s none = (s, []) := tof_update_none observer s
      have := ih s hops
      refine ⟨?_, ?_⟩
      · show (ToFSensor.runOps observer (ToFSensor.update observer s none).1 ops).1.currentDistance
          = s.currentDistance
        rw [hstep]
        exact this.1
      · show (ToFSensor.update observer s none).2
            ++ (ToFSensor.runOps observer (ToFSensor.update observer s none).1 ops).2 = []
        rw [hstep]
        exact this.2

/-- Starting uninitialized, a run with no successful `initialize()` is a
complete no-op. -/
lemma tof_runOps_no_successful_init (observer : Option ℚ) (ops : List ToFOp) :
    ∀ s : ToFState, s.initialized = false →
      (∀ h g, ToFOp.init h g ∈ ops → h = false ∨ g = false) →
      ToFSensor.runOps observer s ops = (s, []) := by
  induction ops with
  | nil => exact fun s _ _ => rfl
  | cons op ops ih =>
    intro s hinit h
    have hops : ∀ a b, ToFOp.init a b ∈ ops → a = false ∨ b = false :=
      fun a b hm => h a b (List.mem_cons_of_mem _ hm)
    cases op with
    | init hw rg =>
      have hfail := tof_initSensor_fail s hw rg (h hw rg (List.mem_cons_self _ _))
      show (let rest := ToFSensor.runOps observer (ToFSensor.initSensor s hw rg).1 ops
            (rest.1, ([] : List ℚ) ++ rest.2)) = (s, [])
      rw [hfail]
      rw [ih s hinit hops]
      rfl
    | update rr =>
      have hstep := tof_update_uninitialized observer s rr hinit
      show (let rest := ToFSensor.runOps observer (ToFSensor.update observer s rr).1 ops
            (rest.1, (ToFSensor.update observer s rr).2 ++ rest.2)) = (s, [])
      rw [hstep]
      rw [ih s hinit hops]
      rfl

/-- C10: a `ToFSensor` starts at the `-1.0` sentinel; `update()` before a
successful `initialize()` changes nothing; over any run with no successful
`readDistance()` the sentinel is still returned by `getDistance()` and no
obstacle observer is notified; over any run with no successful
`initialize()` the whole state is untouched; and once initialized, a valid
measurement makes `getDistance()` return that (last) valid distance. -/
theorem tof_sensor_invariants :
    (∀ (observer : Option ℚ) (s : ToFState) (rr : Option ℚ),
      s.initialized = false → ToFSensor.update observer s rr = (s, []))
    ∧ (∀ (observer : Option ℚ) (ops : List ToFOp),
        (∀ op ∈ ops, ∀ d : ℚ, op ≠ ToFOp.update (some d)) →
        ToFSensor.getDistance (ToFSensor.runOps observer ToFSensor.mk0 ops).1 = -1
          ∧ (ToFSensor.runOps observer ToFSensor.mk0 ops).2 = [])
    ∧ (∀ (observer : Option ℚ) (ops : List ToFOp),
        (∀ h g, ToFOp.init h g ∈ ops → h = false ∨ g = false) →
        ToFSensor.runOps observer ToFSensor.mk0 ops = (ToFSensor.mk0, []))
    ∧ (∀ (observer : Option ℚ) (s : ToFState) (d : ℚ),
        s.initialized = true →
        ToFSensor.getDistance (ToFSensor.update observer s (some d)).1 = d) := by
  refine ⟨tof_update_uninitialized, ?_, ?_, ?_⟩
  · intro observer ops h
    exact tof_runOps_no_valid_read observer ops ToFSensor.mk0 h
  · intro observer ops h
    exact tof_runOps_no_successful_init observer ops ToFSensor.mk0 rfl h
  · intro observer s d hinit
    obtain ⟨cd, ini⟩ := s
    change ini = true at hinit
    subst hinit
    cases observer with
    | none => rfl
    | some threshold =>
      show (if d < threshold then ((⟨d, true⟩ : ToFState), [d])
            else ((⟨d, true⟩ : ToFState), [])).1.currentDistance = d
      split <;> rfl

/-- C10 witness: after a successful `initialize()` and one `update()` with
no new data, `getDistance()` still returns the `-1.0` sentinel and no
observer was notified. -/
theorem tof_sensor_invariants_witness :
    ToFSensor.getDistance
        (ToFSensor.runOps (some 100) ToFSensor.mk0
          [ToFOp.init true true, ToFOp.update none]).1 = -1
      ∧ (ToFSensor.runOps (some 100) ToFSensor.mk0
          [ToFOp.init true true, ToFOp.update none]).2 = [] :=
  tof_sensor_invariants.2.1 (some 100) [ToFOp.init true true, ToFOp.update none]
    (by intro op hop d
        rcases List.mem_cons.mp hop with rfl | hop2
        · simp
        · rw [List.mem_singleton.mp hop2]
          simp)
